import Mathlib

/-!
# Verification of the CSN-snapshot subsystem of `postgres_scaleout`

Shallow embedding of `src/backend/access/transam/csn_snapshot.c` and
`contrib/postgres_fdw/connection.c`.  Machine 64-bit values are modelled as
`Nat` with explicit reduction modulo `2 ^ 64` where the C code can overflow;
transaction ids are `Nat` below `2 ^ 32`.  External collaborators (the CSN
log SLRU, the wall clock, libpq) are passed in explicitly as oracles or
state fields.
-/

namespace CsnSnapshot

/-- `NSECS_PER_SEC`: nanoseconds per second. -/
def NSECS_PER_SEC : Nat := 1000000000

/-- Modulus of 64-bit unsigned arithmetic. -/
def W64 : Nat := 2 ^ 64

/-!
## CSN sentinel values

Modelled from the spec: the header `access/csn_snapshot.h` defining the
`XidCSN` sentinels (`InProgressXidCSN`, `AbortedXidCSN`, `FrozenXidCSN`,
`InDoubtXidCSN`) and the predicates `XidCSNIsNormal` etc. is not among the
provided sources.  The spec lists the four sentinels *InProgress*,
*Aborted*, *Frozen*, *InDoubt* as special values of the 64-bit CSN space,
never compared numerically with concrete (normal) CSNs; we give them the
four smallest codes and let every value at or above `FirstNormalXidCSN`
denote a concrete CSN.
-/

/-- Sentinel: transaction still in progress (also the reset value of the
per-transaction assignment slot). -/
def InProgressXidCSN : Nat := 0

/-- Sentinel: transaction aborted. -/
def AbortedXidCSN : Nat := 1

/-- Sentinel: transaction frozen / permanently visible. -/
def FrozenXidCSN : Nat := 2

/-- Sentinel: commit underway, final CSN not yet published. -/
def InDoubtXidCSN : Nat := 3

/-- First concrete (normal) CSN value. -/
def FirstNormalXidCSN : Nat := 4

/-- A CSN is normal when it is none of the sentinels. -/
def XidCSNIsNormal (csn : Nat) : Bool := FirstNormalXidCSN ≤ csn

/-- Test for the InProgress sentinel. -/
def XidCSNIsInProgress (csn : Nat) : Bool := csn = InProgressXidCSN

/-- Test for the Aborted sentinel. -/
def XidCSNIsAborted (csn : Nat) : Bool := csn = AbortedXidCSN

/-- Test for the Frozen sentinel. -/
def XidCSNIsFrozen (csn : Nat) : Bool := csn = FrozenXidCSN

/-- Test for the InDoubt sentinel. -/
def XidCSNIsInDoubt (csn : Nat) : Bool := csn = InDoubtXidCSN

/-!
## Transaction ids

Modelled from the spec: `transam.h` is not among the provided sources.
Standard PostgreSQL semantics: ids are 32-bit, `0` is invalid, `1` is the
bootstrap id, `2` is the frozen id, normal ids start at `3`;
`TransactionIdPrecedes` compares normal ids by signed 32-bit difference
(wraparound-aware) and falls back to plain comparison if either id is
permanent.
-/

/-- `InvalidTransactionId`. -/
def InvalidTransactionId : Nat := 0

/-- `BootstrapTransactionId`. -/
def BootstrapTransactionId : Nat := 1

/-- `FrozenTransactionId`. -/
def FrozenTransactionId : Nat := 2

/-- `FirstNormalTransactionId`. -/
def FirstNormalTransactionId : Nat := 3

/-- `TransactionIdIsValid`. -/
def TransactionIdIsValid (xid : Nat) : Bool := xid ≠ InvalidTransactionId

/-- `TransactionIdIsNormal`. -/
def TransactionIdIsNormal (xid : Nat) : Bool := FirstNormalTransactionId ≤ xid

/-- `TransactionIdPrecedes`: wraparound-aware "older than" on transaction
ids; the signed 32-bit difference `(int32) (id1 - id2)` is negative exactly
when `(id1 - id2) mod 2^32` lies in the upper half. -/
def TransactionIdPrecedes (id1 id2 : Nat) : Bool :=
  if ¬ TransactionIdIsNormal id1 ∨ ¬ TransactionIdIsNormal id2 then
    id1 < id2
  else
    2 ^ 31 ≤ (id1 + 2 ^ 32 - id2 % 2 ^ 32) % 2 ^ 32

/-!
## Shared clock state and `GenerateCSN`
-/

/-- `CSNSnapshotState`: the shared clock state (spin lock omitted; the
embedding is the state transformer executed inside the critical section). -/
structure CSNSnapshotState where
  last_max_csn : Nat
  last_csn_log_wal : Nat
  xmin_for_csn : Nat
  deriving Repr, DecidableEq

/-- `GenerateCSN`: takes the current wall-clock nanosecond reading
(`INSTR_TIME_GET_NANOSEC`, a 64-bit value passed in as `currentTime`) as a
candidate CSN; under the lock, if the candidate is not above
`last_max_csn` the result is `last_max_csn` incremented (64-bit increment,
hence the reduction modulo `2 ^ 64`), otherwise the candidate itself; the
result always becomes the new `last_max_csn`.  Returns the generated CSN
and the updated shared state. -/
def GenerateCSN (currentTime : Nat) (s : CSNSnapshotState) :
    Nat × CSNSnapshotState :=
  let csn := currentTime
  if csn ≤ s.last_max_csn then
    let csn := (s.last_max_csn + 1) % W64
    (csn, { s with last_max_csn := csn })
  else
    (csn, { s with last_max_csn := csn })

/-- Folding `GenerateCSN` over a list of successive wall-clock readings:
returns the list of generated CSNs and the final state. -/
def generateCSNRun (times : List Nat) (s : CSNSnapshotState) :
    List Nat × CSNSnapshotState :=
  match times with
  | [] => ([], s)
  | t :: ts =>
      let r := GenerateCSN t s
      let rest := generateCSNRun ts r.2
      (r.1 :: rest.1, rest.2)

/-!
## Xmin deferral map (`CSNSnapshotXidMap`)
-/

/-- Pointwise update of a buffer modelled as a function from slot index to
transaction id. -/
def bufWrite (a : Nat → Nat) (i v : Nat) : Nat → Nat :=
  fun j => if j = i then v else a j

/-- `CSNSnapshotXidMap`: circular buffer of `oldestXmin`s, one slot per
rounded second, with `head` the offset of the freshest value and
`last_csn_seconds` the last rounded csn that changed the buffer. -/
structure CSNSnapshotXidMap where
  head : Nat
  size : Nat
  last_csn_seconds : Nat
  xmin_by_second : Nat → Nat

/-- The backfill loop of `CSNSnapshotMapXmin`: starting from slot `off`,
step the offset backwards (`(offset + size - 1) % size`) `count` times,
writing `prev` at each visited slot. -/
def fillGap (size prev : Nat) : Nat → Nat → (Nat → Nat) → (Nat → Nat)
  | 0, _, a => a
  | count + 1, off, a =>
      let off' := (off + size - 1) % size
      fillGap size prev count off' (bufWrite a off' prev)

/-- `CSNSnapshotMapXmin`: round `snapshot_csn` up to the next second; if the
buffer already covers that second (the fast-path atomic read and the
re-check under the lock coincide in the sequential embedding) return the
map unchanged; otherwise record the second, write
`current_oldest_xmin` (the value `GetOldestTransactionIdConsideredRunning`
computed, passed in as a parameter) at that second's slot, move `head`
there, and fill the gap of skipped seconds (clamped to the buffer size)
with the previous head value. -/
def CSNSnapshotMapXmin (snapshot_csn current_oldest_xmin : Nat)
    (m : CSNSnapshotXidMap) : CSNSnapshotXidMap :=
  let csn_seconds := snapshot_csn / NSECS_PER_SEC + 1
  if m.last_csn_seconds ≥ csn_seconds then m
  else
    let last_csn_seconds := m.last_csn_seconds
    let previous_oldest_xmin := m.xmin_by_second m.head
    let gap := csn_seconds - last_csn_seconds
    let offset := csn_seconds % m.size
    let gap := if gap > m.size then m.size else gap
    let a := bufWrite m.xmin_by_second offset current_oldest_xmin
    let a := fillGap m.size previous_oldest_xmin (gap - 1) offset a
    { m with
      last_csn_seconds := csn_seconds
      head := offset
      xmin_by_second := a }

/-- `CSNSnapshotToXmin`: round `snapshot_csn` down to whole seconds; if that
second is newer than the last recorded one, return the head slot; if it is
within the retention window, return that second's slot; otherwise return
`InvalidTransactionId` (snapshot too old). -/
def CSNSnapshotToXmin (snapshot_csn : Nat) (m : CSNSnapshotXidMap) : Nat :=
  let csn_seconds := snapshot_csn / NSECS_PER_SEC
  if csn_seconds > m.last_csn_seconds then
    m.xmin_by_second m.head
  else if m.last_csn_seconds - csn_seconds < m.size then
    m.xmin_by_second (csn_seconds % m.size)
  else
    InvalidTransactionId

/-!
## Visibility oracle (`TransactionIdGetXidCSN`, `XidInvisibleInCSNSnapshot`)
-/

/-- Environment of a visibility lookup: the external CSN log (first read
and re-read after `XactLockTableWait` on an InDoubt entry), the backend's
`TransactionXmin`, and the shared state's `xmin_for_csn`. -/
structure XidCSNEnv where
  csnlog : Nat → Nat
  csnlogAfterWait : Nat → Nat
  TransactionXmin : Nat
  sharedXminForCsn : Nat

/-- The `xmin_for_csn` horizon maintenance of `TransactionIdGetXidCSN`
(lines 437–452): the backend-local `xmin_for_csn` cache (a static
variable, passed in) is initialized from the shared state — or
`FrozenTransactionId` if that is unset — and bumped to `TransactionXmin`
when it lags behind it. -/
def csnHorizon (env : XidCSNEnv) (xmin_for_csn : Nat) : Nat :=
  let x0 :=
    if xmin_for_csn = InvalidTransactionId then
      if env.sharedXminForCsn ≠ InvalidTransactionId then
        env.sharedXminForCsn
      else
        FrozenTransactionId
    else xmin_for_csn
  if x0 ≠ InvalidTransactionId ∧ x0 ≠ FrozenTransactionId ∧
      TransactionIdPrecedes x0 env.TransactionXmin then
    env.TransactionXmin
  else x0

/-- `TransactionIdGetXidCSN`: map a transaction id to its `XidCSN`.
Permanent ids map to fixed sentinels; ids preceding the `csnHorizon`
value are `Frozen` (the log, possibly already trimmed there, is not
consulted); otherwise the CSN log is read, waiting out an `InDoubt` entry
by re-reading after the owning transaction finishes.  Returns the CSN and
the updated local `xmin_for_csn`. -/
def TransactionIdGetXidCSN (env : XidCSNEnv) (xmin_for_csn : Nat)
    (xid : Nat) : Nat × Nat :=
  if ¬ TransactionIdIsNormal xid then
    if xid = InvalidTransactionId then
      (AbortedXidCSN, xmin_for_csn)
    else
      (FrozenXidCSN, xmin_for_csn)
  else
    let x1 := csnHorizon env xmin_for_csn
    if TransactionIdPrecedes xid x1 then
      (FrozenXidCSN, x1)
    else
      let xid_csn := env.csnlog xid
      let xid_csn :=
        if XidCSNIsInDoubt xid_csn then env.csnlogAfterWait xid else xid_csn
      (xid_csn, x1)

/-- `XidInvisibleInCSNSnapshot`: decide whether `xid` is invisible to a
snapshot whose visibility boundary is `snapshot_csn`: a normal CSN is
invisible iff it is not below the snapshot's CSN, Frozen is visible, and
everything else (aborted / in-progress) is invisible. -/
def XidInvisibleInCSNSnapshot (env : XidCSNEnv) (xmin_for_csn : Nat)
    (xid snapshot_csn : Nat) : Bool :=
  let csn := (TransactionIdGetXidCSN env xmin_for_csn xid).1
  if XidCSNIsNormal csn then
    if csn < snapshot_csn then false else true
  else if XidCSNIsFrozen csn then
    false
  else
    true

/-!
## Local commit/abort protocol
-/

/-- `CSNLogSetCSN`: write `csn` into the commit-status log for the
top-level id and every subtransaction id in one batch (WAL write omitted:
external collaborator). -/
def CSNLogSetCSN (xid : Nat) (subxids : List Nat) (csn : Nat)
    (log : Nat → Nat) : Nat → Nat :=
  fun x => if x = xid ∨ x ∈ subxids then csn else log x

/-- Per-backend local transaction state: the CSN log contents and the
per-transaction assignment slot `proc->assignedXidCsn`. -/
structure LocalXactState where
  csnlog : Nat → Nat
  assignedXidCsn : Nat

/-- `CSNSnapshotAbort`: when the module is enabled, write `Aborted`
directly (no InDoubt step) for the top id and all subids and reset the
assignment slot to `InProgress`; otherwise do nothing. -/
def CSNSnapshotAbort (enable : Bool) (xid : Nat) (subxids : List Nat)
    (s : LocalXactState) : LocalXactState :=
  if ¬ enable then s
  else
    { csnlog := CSNLogSetCSN xid subxids AbortedXidCSN s.csnlog
      assignedXidCsn := InProgressXidCSN }

/-- `CSNSnapshotPrecommit`: when enabled, compare-and-swap the assignment
slot from `InProgress` to `InDoubt`; on success also record `InDoubt` in
the log for the top id and all subids; otherwise (slot already holds a
CSN) leave everything as is. -/
def CSNSnapshotPrecommit (enable : Bool) (xid : Nat) (subxids : List Nat)
    (s : LocalXactState) : LocalXactState :=
  if ¬ enable then s
  else if s.assignedXidCsn = InProgressXidCSN then
    { csnlog := CSNLogSetCSN xid subxids InDoubtXidCSN s.csnlog
      assignedXidCsn := InDoubtXidCSN }
  else s

/-- `CSNSnapshotCommit`: when enabled and the xid is valid, write the
previously assigned CSN from the slot into the log for the top id and all
subids and reset the slot to `InProgress`; with an invalid xid only the
slot is read (asserted `InProgress`) and nothing changes. -/
def CSNSnapshotCommit (enable : Bool) (xid : Nat) (subxids : List Nat)
    (s : LocalXactState) : LocalXactState :=
  if ¬ enable then s
  else if ¬ TransactionIdIsValid xid then s
  else
    { csnlog := CSNLogSetCSN xid subxids s.assignedXidCsn s.csnlog
      assignedXidCsn := InProgressXidCSN }

end CsnSnapshot

namespace PostgresFdw

/-!
## `contrib/postgres_fdw/connection.c`

The remote side (libpq) is abstracted as oracles: `connect` gives the
outcome of the `n`-th `connect_pg_server` call, `exec` the outcome of the
`n`-th remote command issued during the modelled call.  A remote error
carries the sqlstate that `pgfdw_report_error` would derive (the result's
diagnostic field, or `ERRCODE_CONNECTION_FAILURE` when absent) and the
`PQstatus(conn) == CONNECTION_BAD` observation a later catch block would
make.
-/

/-- `PGSIXBIT(ch)`: `((ch) - '0') & 0x3F`. -/
def PGSIXBIT (ch : Nat) : Nat := (ch - 48) % 64

/-- `MAKE_SQLSTATE`: pack five sqlstate characters, six bits each. -/
def MAKE_SQLSTATE (c1 c2 c3 c4 c5 : Nat) : Nat :=
  PGSIXBIT c1 + PGSIXBIT c2 * 64 + PGSIXBIT c3 * 4096 +
    PGSIXBIT c4 * 262144 + PGSIXBIT c5 * 16777216

/-- `ERRCODE_CONNECTION_FAILURE` = sqlstate `08006`. -/
def ERRCODE_CONNECTION_FAILURE : Nat := MAKE_SQLSTATE 48 56 48 48 54

/-- `ERRCODE_CONNECTION_EXCEPTION` = sqlstate `08000`. -/
def ERRCODE_CONNECTION_EXCEPTION : Nat := MAKE_SQLSTATE 48 56 48 48 48

/-- `ERRCODE_UNDEFINED_OBJECT` = sqlstate `42704`. -/
def ERRCODE_UNDEFINED_OBJECT : Nat := MAKE_SQLSTATE 52 50 55 48 52

/-- `ERRCODE_INTERNAL_ERROR` = sqlstate `XX000`, the default error code of
an `ereport(ERROR, ...)` that supplies no `errcode`. -/
def ERRCODE_INTERNAL_ERROR : Nat := MAKE_SQLSTATE 88 88 48 48 48

/-- A raised remote-side error: the sqlstate attached to the local
`ereport`, and whether `PQstatus` of the connection reads
`CONNECTION_BAD` when a catch block inspects it afterwards. -/
structure FdwError where
  sqlstate : Nat
  connBad : Bool
  deriving DecidableEq, Repr

/-- Outcome of issuing one remote command: success; an error thrown while
sending the query or collecting the result (`pgfdw_report_error` on a
`NULL` result, connection-level); or a result whose status is not the
expected OK status (the error is then built from the result). -/
inductive SqlResult where
  | ok
  | execErr (e : FdwError)
  | badStatus (e : FdwError)
  deriving DecidableEq, Repr

/-- `InvalidCSN`.  Modelled from the spec: the header defining `InvalidCSN`
is not among the provided sources; it is the "no CSN pushed yet" reset
value of `imported_csn`. -/
def InvalidCSN : Nat := 0

/-- `ConnCacheEntry` (the hash key is implicit: one entry per user-mapping
identity; the connection handle is `some` connection id or `none`). -/
structure ConnCacheEntry where
  conn : Option Nat
  xact_depth : Nat
  have_prep_stmt : Bool
  have_error : Bool
  changing_xact_state : Bool
  invalidated : Bool
  modified : Bool
  server_hashvalue : Nat
  mapping_hashvalue : Nat
  imported_csn : Nat
  deriving DecidableEq, Repr

/-- `disconnect_pg_server`: close and clear the connection handle. -/
def disconnect_pg_server (entry : ConnCacheEntry) : ConnCacheEntry :=
  { entry with conn := none }

/-- `make_new_connection`: reset all transient state fields of the entry
and establish a new connection (the `c`-th connect attempt); on failure
the entry keeps `conn = none` with the fields already reset. -/
def make_new_connection (connect : Nat → Except FdwError Nat)
    (server_hash mapping_hash : Nat) (c : Nat) (entry : ConnCacheEntry) :
    Except (FdwError × ConnCacheEntry) (ConnCacheEntry × Nat) :=
  let entry :=
    { entry with
      xact_depth := 0
      have_prep_stmt := false
      have_error := false
      changing_xact_state := false
      invalidated := false
      modified := false
      imported_csn := InvalidCSN
      server_hashvalue := server_hash
      mapping_hashvalue := mapping_hash }
  match connect c with
  | .error e => .error (e, entry)
  | .ok cid => .ok ({ entry with conn := some cid }, c + 1)

/-- Environment of a `GetConnection` call: the libpq oracles, the
global-snapshot configuration, the CSN `ExportCSNSnapshot()` would return,
and the local transaction nest level. -/
structure FdwEnv where
  connect : Nat → Except FdwError Nat
  exec : Nat → SqlResult
  globalSnapshotEnabled : Bool
  isolationUsesXactSnapshot : Bool
  isolationSerializable : Bool
  exportCSN : Nat
  curlevel : Nat
  server_hashvalue : Nat
  mapping_hashvalue : Nat

/-- `SyncCSNSnapshot`: when global snapshots are enabled and the exported
CSN differs from the one last pushed on this connection, push it
(`pg_csn_snapshot_import`); a non-`PGRES_TUPLES_OK` result raises the
"failed to import" error (plain `errmsg`, hence internal error code) after
`changing_xact_state` was already cleared. -/
def SyncCSNSnapshot (env : FdwEnv) (entry : ConnCacheEntry) (k : Nat) :
    Except (FdwError × ConnCacheEntry × Nat) (ConnCacheEntry × Nat) :=
  if ¬ env.globalSnapshotEnabled then .ok (entry, k)
  else
    let csn := env.exportCSN
    if csn ≠ entry.imported_csn then
      let entry := { entry with imported_csn := csn }
      let entry := { entry with changing_xact_state := true }
      match env.exec k with
      | .execErr e => .error (e, entry, k + 1)
      | .badStatus e =>
          .error (⟨ERRCODE_INTERNAL_ERROR, e.connBad⟩,
                  { entry with changing_xact_state := false }, k + 1)
      | .ok => .ok ({ entry with changing_xact_state := false }, k + 1)
    else .ok (entry, k)

/-- The savepoint loop of `begin_remote_xact`: issue one `SAVEPOINT`
per missing nesting level until the remote depth matches the local level
(`fuel` = number of levels still to push); `do_sql_command` failures
propagate with `changing_xact_state` still set. -/
def savepointLoop (env : FdwEnv) :
    Nat → ConnCacheEntry → Nat →
    Except (FdwError × ConnCacheEntry × Nat) (ConnCacheEntry × Nat)
  | 0, entry, k => .ok (entry, k)
  | fuel + 1, entry, k =>
      let entry := { entry with changing_xact_state := true }
      match env.exec k with
      | .execErr e => .error (e, entry, k + 1)
      | .badStatus e => .error (e, entry, k + 1)
      | .ok =>
          savepointLoop env fuel
            { entry with
              xact_depth := entry.xact_depth + 1
              changing_xact_state := false }
            (k + 1)

/-- `begin_remote_xact`: if no remote transaction is open, reject
configurations where global snapshots are enabled at an isolation level
other than plain REPEATABLE READ, then issue `START TRANSACTION` (at
REPEATABLE READ or SERIALIZABLE) bringing the depth to 1; then push the
local CSN if needed (`SyncCSNSnapshot`) and stack savepoints up to the
local nest level.  Errors carry the entry state and command counter at the
throw point. -/
def begin_remote_xact (env : FdwEnv) (entry : ConnCacheEntry) (k : Nat) :
    Except (FdwError × ConnCacheEntry × Nat) (ConnCacheEntry × Nat) :=
  let start :
      Except (FdwError × ConnCacheEntry × Nat) (ConnCacheEntry × Nat) :=
    if entry.xact_depth = 0 then
      if env.globalSnapshotEnabled ∧
          (¬ env.isolationUsesXactSnapshot ∨ env.isolationSerializable) then
        .error (⟨ERRCODE_INTERNAL_ERROR, false⟩, entry, k)
      else
        let entry := { entry with changing_xact_state := true }
        match env.exec k with
        | .execErr e => .error (e, entry, k + 1)
        | .badStatus e => .error (e, entry, k + 1)
        | .ok =>
            .ok ({ entry with
                    xact_depth := 1
                    modified := false
                    changing_xact_state := false }, k + 1)
    else .ok (entry, k)
  match start with
  | .error x => .error x
  | .ok (entry, k) =>
      match SyncCSNSnapshot env entry k with
      | .error x => .error x
      | .ok (entry, k) =>
          savepointLoop env (env.curlevel - entry.xact_depth) entry k

/-- Result of `GetConnection`: the final cache entry (inside `Except`, with
the entry state also reported on error) and how many times
`begin_remote_xact` was attempted. -/
structure GCResult where
  res : Except (FdwError × ConnCacheEntry) ConnCacheEntry
  beginAttempts : Nat

/-- The `PG_TRY` part of `GetConnection`, entered with a live connection:
attempt `begin_remote_xact`; on an error whose sqlstate is not
`ERRCODE_CONNECTION_FAILURE`, or with `PQstatus` not `CONNECTION_BAD`, or
with a remote transaction already open (`xact_depth > 0`), rethrow;
otherwise disconnect, establish a new connection and retry the begin
exactly once, any failure now propagating. -/
def GetConnectionFromBegin (env : FdwEnv) (entry : ConnCacheEntry)
    (k c : Nat) (will_prep_stmt : Bool) : GCResult :=
  match begin_remote_xact env entry k with
  | .ok (entry, _) =>
      { res := .ok { entry with
                      have_prep_stmt := entry.have_prep_stmt || will_prep_stmt }
        beginAttempts := 1 }
  | .error (e, entry, k') =>
      if e.sqlstate ≠ ERRCODE_CONNECTION_FAILURE ∨ ¬ e.connBad ∨
          entry.xact_depth > 0 then
        { res := .error (e, entry), beginAttempts := 1 }
      else
        let entry := disconnect_pg_server entry
        match make_new_connection env.connect env.server_hashvalue
                env.mapping_hashvalue c entry with
        | .error (e2, entry2) =>
            { res := .error (e2, entry2), beginAttempts := 1 }
        | .ok (entry, _) =>
            match begin_remote_xact env entry k' with
            | .ok (entry, _) =>
                { res := .ok { entry with
                                have_prep_stmt :=
                                  entry.have_prep_stmt || will_prep_stmt }
                  beginAttempts := 2 }
            | .error (e2, entry2, _) =>
                { res := .error (e2, entry2), beginAttempts := 2 }

/-- `GetConnection`: reject an entry marked mid-transition
(`pgfdw_reject_incomplete_xact_state_change`, which disconnects and raises
`ERRCODE_CONNECTION_EXCEPTION`); drop an invalidated connection once out
of all transactions; establish a connection if there is none; then open
the remote transaction with the single-retry policy of
`GetConnectionFromBegin`; finally remember whether the caller will prepare
statements. -/
def GetConnection (env : FdwEnv) (entry : ConnCacheEntry)
    (will_prep_stmt : Bool) : GCResult :=
  if entry.conn.isSome ∧ entry.changing_xact_state then
    { res := .error (⟨ERRCODE_CONNECTION_EXCEPTION, false⟩,
                     disconnect_pg_server entry)
      beginAttempts := 0 }
  else
    let entry :=
      if entry.conn.isSome ∧ entry.invalidated ∧ entry.xact_depth = 0 then
        disconnect_pg_server entry
      else entry
    match (if entry.conn = none then
             make_new_connection env.connect env.server_hashvalue
               env.mapping_hashvalue 0 entry
           else .ok (entry, 0)) with
    | .error (e, entry) => { res := .error (e, entry), beginAttempts := 0 }
    | .ok (entry, c) => GetConnectionFromBegin env entry 0 c will_prep_stmt

/-- `pgfdw_cleanup_after_transaction`: reset the per-transaction fields;
discard the connection if it is not in a good idle state
(`connNotIdle`, the external `PQstatus`/`PQtransactionStatus` checks) or
was mid-transition; finally clear `changing_xact_state`. -/
def pgfdw_cleanup_after_transaction (connNotIdle : Bool)
    (entry : ConnCacheEntry) : ConnCacheEntry :=
  let entry :=
    { entry with
      xact_depth := 0
      have_prep_stmt := false
      have_error := false
      imported_csn := InvalidCSN }
  let entry :=
    if connNotIdle ∨ entry.changing_xact_state then
      disconnect_pg_server entry
    else entry
  { entry with changing_xact_state := false }

/-- Environment of a `pgfdw_end_prepared_xact` call. -/
structure EndPreparedEnv where
  connBadNow : Bool
  connect : Nat → Except FdwError Nat
  execResult : SqlResult
  connNotIdleAfter : Bool
  server_hashvalue : Nat
  mapping_hashvalue : Nat

/-- The connection-establishment prefix of `pgfdw_end_prepared_xact`:
drop a connection already known broken (`PQstatus != CONNECTION_OK`), then
connect anew if there is no connection (in the two-phase case the
resolving process may differ from the preparer). -/
def endPreparedConn (env : EndPreparedEnv) (entry : ConnCacheEntry) :
    Except (FdwError × ConnCacheEntry) (ConnCacheEntry × Nat) :=
  let entry :=
    if entry.conn.isSome ∧ env.connBadNow then disconnect_pg_server entry
    else entry
  if entry.conn = none then
    make_new_connection env.connect env.server_hashvalue
      env.mapping_hashvalue 0 entry
  else .ok (entry, 0)

/-- `pgfdw_end_prepared_xact`: after `endPreparedConn`, issue
`COMMIT PREPARED` / `ROLLBACK PREPARED`; a result with an error status is
surfaced unless its sqlstate is `ERRCODE_UNDEFINED_OBJECT` (the prepared
transaction no longer exists: treated as already resolved); on the
tolerated and the successful paths the entry is cleaned up for the next
transaction. -/
def pgfdw_end_prepared_xact (env : EndPreparedEnv) (entry : ConnCacheEntry)
    (is_commit : Bool) : Except (FdwError × ConnCacheEntry) ConnCacheEntry :=
  match endPreparedConn env entry with
  | .error (e, entry) => .error (e, entry)
  | .ok (entry, _) =>
      match env.execResult with
      | .execErr e => .error (e, entry)
      | .badStatus e =>
          if e.sqlstate ≠ ERRCODE_UNDEFINED_OBJECT then .error (e, entry)
          else .ok (pgfdw_cleanup_after_transaction env.connNotIdleAfter entry)
      | .ok => .ok (pgfdw_cleanup_after_transaction env.connNotIdleAfter entry)

end PostgresFdw

/-!
# Theorems
-/

open CsnSnapshot PostgresFdw

/-- One `GenerateCSN` step strictly increases `last_max_csn`, which ends
equal to the returned CSN. -/
lemma generateCSN_step (t : Nat) (s : CSNSnapshotState)
    (h : s.last_max_csn + 1 < W64) :
    s.last_max_csn < (GenerateCSN t s).1 ∧
      (GenerateCSN t s).2.last_max_csn = (GenerateCSN t s).1 := by
  unfold GenerateCSN
  by_cases hc : t ≤ s.last_max_csn <;>
    simp [hc, Nat.mod_eq_of_lt h]
  omega

/-- Outputs of a `GenerateCSN` run are strictly increasing and exceed the
initial high-water mark, as long as no 64-bit overflow can occur. -/
lemma generateCSNRun_pairwise (times : List Nat) :
    ∀ s : CSNSnapshotState,
      s.last_max_csn + times.length < W64 →
      (∀ t ∈ times, t + times.length < W64) →
      List.Pairwise (· < ·) (generateCSNRun times s).1 ∧
        ∀ x ∈ (generateCSNRun times s).1, s.last_max_csn < x := by
  induction times with
  | nil => intro s _ _; simp [generateCSNRun]
  | cons t ts ih =>
      intro s h1 h2
      have hlen : ts.length + 1 = (t :: ts).length := by simp
      have hov : s.last_max_csn + 1 < W64 := by
        simp only [List.length_cons] at h1; omega
      obtain ⟨hgt, hlast⟩ := generateCSN_step t s hov
      have hbound : (GenerateCSN t s).2.last_max_csn + ts.length < W64 := by
        rw [hlast]
        unfold GenerateCSN
        by_cases hc : t ≤ s.last_max_csn <;> simp [hc, Nat.mod_eq_of_lt hov]
        · simp only [List.length_cons] at h1; omega
        · have := h2 t (by simp)
          simp only [List.length_cons] at this; omega
      have hts : ∀ u ∈ ts, u + ts.length < W64 := by
        intro u hu
        have := h2 u (by simp [hu])
        simp only [List.length_cons] at this; omega
      obtain ⟨hpw, hall⟩ := ih (GenerateCSN t s).2 hbound hts
      constructor
      · show List.Pairwise (· < ·)
          ((GenerateCSN t s).1 :: (generateCSNRun ts (GenerateCSN t s).2).1)
        refine List.Pairwise.cons ?_ hpw
        intro x hx
        have := hall x hx
        omega
      · intro x hx
        simp only [generateCSNRun, List.mem_cons] at hx
        rcases hx with rfl | hx
        · exact hgt
        · have := hall x hx
          omega

/-- C1: `GenerateCSN` is strictly monotone: for every call, letting
`candidate` be the wall-clock nanosecond reading, if
`candidate ≤ last_max_csn` then the returned CSN is `last_max_csn + 1`,
otherwise it is the candidate itself; in both cases `last_max_csn` is
updated to the returned value, so across any sequence of calls (absent
64-bit overflow) the returned CSNs are pairwise distinct and strictly
increasing. -/
theorem GenerateCSN_strictly_monotone :
    (∀ (candidate : Nat) (s : CSNSnapshotState),
      s.last_max_csn + 1 < W64 →
        (candidate ≤ s.last_max_csn →
          (GenerateCSN candidate s).1 = s.last_max_csn + 1) ∧
        (s.last_max_csn < candidate →
          (GenerateCSN candidate s).1 = candidate) ∧
        (GenerateCSN candidate s).2.last_max_csn =
          (GenerateCSN candidate s).1) ∧
    (∀ (times : List Nat) (s : CSNSnapshotState),
      s.last_max_csn + times.length < W64 →
      (∀ t ∈ times, t + times.length < W64) →
        List.Pairwise (· < ·) (generateCSNRun times s).1 ∧
        List.Pairwise (· ≠ ·) (generateCSNRun times s).1) := by
  constructor
  · intro candidate s h
    refine ⟨?_, ?_, (generateCSN_step candidate s h).2⟩
    · intro hc
      unfold GenerateCSN
      simp [hc, Nat.mod_eq_of_lt h]
    · intro hc
      unfold GenerateCSN
      simp [Nat.not_le.mpr hc, Nat.lt_irrefl]
  · intro times s h1 h2
    obtain ⟨hpw, _⟩ := generateCSNRun_pairwise times s h1 h2
    exact ⟨hpw, hpw.imp Nat.ne_of_lt⟩

/-- Witness for C1 at concrete inputs: a stalled clock (candidate `5` with
`last_max_csn = 10`) yields `11`, and a three-call run yields strictly
increasing CSNs. -/
theorem GenerateCSN_strictly_monotone_witness :
    (GenerateCSN 5 ⟨10, 0, 0⟩).1 = 11 ∧
      List.Pairwise (· < ·) (generateCSNRun [5, 100, 7] ⟨10, 0, 0⟩).1 := by
  constructor
  · exact (GenerateCSN_strictly_monotone.1 5 ⟨10, 0, 0⟩
      (by norm_num [W64])).1 (by norm_num)
  · exact (GenerateCSN_strictly_monotone.2 [5, 100, 7] ⟨10, 0, 0⟩
      (by norm_num [W64])
      (by intro t ht; fin_cases ht <;> norm_num [W64])).1

/-- C2: `XidInvisibleInCSNSnapshot` decides by cases on the xid's CSN:
visible (false) when it is the Frozen sentinel; invisible (true) when it
is the InProgress or Aborted sentinel (an InDoubt log entry having been
resolved by the post-wait re-read inside `TransactionIdGetXidCSN`); and
for a concrete (normal) CSN, invisible iff that CSN is at or above the
snapshot's CSN. -/
theorem XidInvisibleInCSNSnapshot_cases :
    ∀ (env : XidCSNEnv) (xmin_for_csn xid snapshot_csn : Nat),
      (XidCSNIsFrozen (TransactionIdGetXidCSN env xmin_for_csn xid).1 →
        XidInvisibleInCSNSnapshot env xmin_for_csn xid snapshot_csn =
          false) ∧
      ((XidCSNIsInProgress (TransactionIdGetXidCSN env xmin_for_csn xid).1 ∨
          XidCSNIsAborted (TransactionIdGetXidCSN env xmin_for_csn xid).1) →
        XidInvisibleInCSNSnapshot env xmin_for_csn xid snapshot_csn =
          true) ∧
      (XidCSNIsNormal (TransactionIdGetXidCSN env xmin_for_csn xid).1 →
        (XidInvisibleInCSNSnapshot env xmin_for_csn xid snapshot_csn =
            true ↔
          snapshot_csn ≤ (TransactionIdGetXidCSN env xmin_for_csn xid).1)) := by
  intro env x xid snap
  simp only [XidInvisibleInCSNSnapshot]
  generalize (TransactionIdGetXidCSN env x xid).1 = c
  refine ⟨?_, ?_, ?_⟩
  · intro h
    simp only [XidCSNIsFrozen, FrozenXidCSN, decide_eq_true_eq] at h
    subst h
    simp [XidCSNIsNormal, XidCSNIsFrozen, FirstNormalXidCSN, FrozenXidCSN]
  · intro h
    have hc : c = 0 ∨ c = 1 := by
      rcases h with h | h
      · simp only [XidCSNIsInProgress, InProgressXidCSN,
          decide_eq_true_eq] at h
        exact Or.inl h
      · simp only [XidCSNIsAborted, AbortedXidCSN, decide_eq_true_eq] at h
        exact Or.inr h
    rcases hc with rfl | rfl <;>
      simp [XidCSNIsNormal, XidCSNIsFrozen, FirstNormalXidCSN, FrozenXidCSN]
  · intro h
    simp only [XidCSNIsNormal, FirstNormalXidCSN, decide_eq_true_eq] at h
    rw [if_pos (by simpa [XidCSNIsNormal, FirstNormalXidCSN] using h)]
    by_cases hlt : c < snap
    · simp only [if_pos hlt]
      constructor
      · intro hfalse
        exact absurd hfalse (by simp)
      · intro hle
        omega
    · simp only [if_neg hlt]
      constructor
      · intro _
        omega
      · intro _
        trivial

/-- Witness for C2 across all three cases: a frozen log entry is visible,
an aborted one invisible, and a concrete CSN (`100`) is invisible for a
snapshot at `100` but visible for one at `101`. -/
theorem XidInvisibleInCSNSnapshot_cases_witness :
    XidInvisibleInCSNSnapshot ⟨fun _ => 2, fun _ => 2, 3, 3⟩ 3 5 50 =
        false ∧
      XidInvisibleInCSNSnapshot ⟨fun _ => 1, fun _ => 1, 3, 3⟩ 3 5 50 =
        true ∧
      XidInvisibleInCSNSnapshot ⟨fun _ => 100, fun _ => 100, 3, 3⟩ 3 5 100 =
        true ∧
      XidInvisibleInCSNSnapshot ⟨fun _ => 100, fun _ => 100, 3, 3⟩ 3 5 101 =
        false := by
  refine ⟨?_, ?_, ?_, ?_⟩
  · exact (XidInvisibleInCSNSnapshot_cases ⟨fun _ => 2, fun _ => 2, 3, 3⟩
      3 5 50).1 (by decide)
  · exact (XidInvisibleInCSNSnapshot_cases ⟨fun _ => 1, fun _ => 1, 3, 3⟩
      3 5 50).2.1 (Or.inr (by decide))
  · exact ((XidInvisibleInCSNSnapshot_cases ⟨fun _ => 100, fun _ => 100, 3, 3⟩
      3 5 100).2.2 (by decide)).mpr (by decide)
  · have := (XidInvisibleInCSNSnapshot_cases ⟨fun _ => 100, fun _ => 100, 3, 3⟩
      3 5 101).2.2 (by decide)
    rcases hb : XidInvisibleInCSNSnapshot
        ⟨fun _ => 100, fun _ => 100, 3, 3⟩ 3 5 101 with _ | _
    · rfl
    · exact absurd (this.mp hb) (by decide)

/-- C3: a normal transaction id preceding the tracked horizon
(`csnHorizon`) gets the Frozen sentinel from `TransactionIdGetXidCSN`
independently of the commit-status log contents, and is therefore visible
(`XidInvisibleInCSNSnapshot = false`) for every snapshot. -/
theorem TransactionIdGetXidCSN_frozen_before_horizon :
    ∀ (env : XidCSNEnv) (xmin_for_csn xid : Nat),
      TransactionIdIsNormal xid →
      TransactionIdPrecedes xid (csnHorizon env xmin_for_csn) →
      (∀ f g : Nat → Nat,
        (TransactionIdGetXidCSN
            { env with csnlog := f, csnlogAfterWait := g }
            xmin_for_csn xid).1 = FrozenXidCSN) ∧
      (∀ snapshot_csn : Nat,
        XidInvisibleInCSNSnapshot env xmin_for_csn xid snapshot_csn =
          false) := by
  intro env x xid hnorm hprec
  have hcsn : ∀ f g : Nat → Nat,
      (TransactionIdGetXidCSN { env with csnlog := f, csnlogAfterWait := g }
        x xid).1 = FrozenXidCSN := by
    intro f g
    have hh : csnHorizon { env with csnlog := f, csnlogAfterWait := g } x =
        csnHorizon env x := rfl
    simp only [TransactionIdGetXidCSN, hh, hnorm, not_true_eq_false,
      if_false, hprec, if_true]
  refine ⟨hcsn, ?_⟩
  intro snap
  have h0 : (TransactionIdGetXidCSN env x xid).1 = FrozenXidCSN := by
    have := hcsn env.csnlog env.csnlogAfterWait
    exact this
  simp only [XidInvisibleInCSNSnapshot, h0]
  simp [XidCSNIsNormal, XidCSNIsFrozen, FirstNormalXidCSN, FrozenXidCSN]

/-- Witness for C3: with the horizon at `100`, xid `50` is frozen and
visible regardless of log contents and snapshot. -/
theorem TransactionIdGetXidCSN_frozen_before_horizon_witness :
    (TransactionIdGetXidCSN ⟨fun _ => 7, fun _ => 7, 100, 100⟩ 100 50).1 =
        FrozenXidCSN ∧
      XidInvisibleInCSNSnapshot ⟨fun _ => 7, fun _ => 7, 100, 100⟩
        100 50 4 = false := by
  have h := TransactionIdGetXidCSN_frozen_before_horizon
    ⟨fun _ => 7, fun _ => 7, 100, 100⟩ 100 50 (by decide) (by decide)
  exact ⟨h.1 (fun _ => 7) (fun _ => 7), h.2 4⟩

/-- C10: on the invalid (no-id) transaction id, `TransactionIdGetXidCSN`
returns the Aborted sentinel, and `XidInvisibleInCSNSnapshot` therefore
reports it invisible for every snapshot. -/
theorem TransactionIdGetXidCSN_invalid_aborted :
    ∀ (env : XidCSNEnv) (xmin_for_csn snapshot_csn : Nat),
      (TransactionIdGetXidCSN env xmin_for_csn InvalidTransactionId).1 =
        AbortedXidCSN ∧
      XidInvisibleInCSNSnapshot env xmin_for_csn InvalidTransactionId
        snapshot_csn = true := by
  intro env x snap
  have h0 : (TransactionIdGetXidCSN env x InvalidTransactionId).1 =
      AbortedXidCSN := by
    simp [TransactionIdGetXidCSN, TransactionIdIsNormal,
      InvalidTransactionId, FirstNormalTransactionId]
  refine ⟨h0, ?_⟩
  simp only [XidInvisibleInCSNSnapshot, h0]
  simp [XidCSNIsNormal, XidCSNIsFrozen, FirstNormalXidCSN, FrozenXidCSN,
    AbortedXidCSN]

/-- C9: with `enable_csn_snapshot` off, `CSNSnapshotPrecommit`,
`CSNSnapshotCommit` and `CSNSnapshotAbort` return immediately, leaving the
commit-status log and the per-transaction assignment slot untouched. -/
theorem csnSnapshot_disabled_noop :
    ∀ (xid : Nat) (subxids : List Nat) (s : LocalXactState),
      CSNSnapshotPrecommit false xid subxids s = s ∧
      CSNSnapshotCommit false xid subxids s = s ∧
      CSNSnapshotAbort false xid subxids s = s := by
  intro xid subxids s
  refine ⟨?_, ?_, ?_⟩ <;>
    simp [CSNSnapshotPrecommit, CSNSnapshotCommit, CSNSnapshotAbort]

/-- C6: `CSNSnapshotAbort` writes the Aborted sentinel (which differs from
the InDoubt sentinel) directly into the commit-status log for the
top-level xid and all subtransaction ids, resets the assignment slot to
InProgress, and leaves every other log entry unchanged. -/
theorem CSNSnapshotAbort_skips_indoubt :
    ∀ (xid : Nat) (subxids : List Nat) (s : LocalXactState) (x : Nat),
      ((x = xid ∨ x ∈ subxids) →
        (CSNSnapshotAbort true xid subxids s).csnlog x = AbortedXidCSN ∧
        (CSNSnapshotAbort true xid subxids s).csnlog x ≠ InDoubtXidCSN) ∧
      (¬ (x = xid ∨ x ∈ subxids) →
        (CSNSnapshotAbort true xid subxids s).csnlog x = s.csnlog x) ∧
      (CSNSnapshotAbort true xid subxids s).assignedXidCsn =
        InProgressXidCSN := by
  intro xid subxids s x
  refine ⟨?_, ?_, ?_⟩
  · intro h
    simp [CSNSnapshotAbort, CSNLogSetCSN, h, AbortedXidCSN, InDoubtXidCSN]
  · intro h
    simp [CSNSnapshotAbort, CSNLogSetCSN, h]
  · simp [CSNSnapshotAbort]

/-- Witness for C6: aborting xid `10` with subids `[11, 12]` marks `11`
aborted and leaves xid `99` alone. -/
theorem CSNSnapshotAbort_skips_indoubt_witness :
    (CSNSnapshotAbort true 10 [11, 12] ⟨fun _ => 7, 42⟩).csnlog 11 =
        AbortedXidCSN ∧
      (CSNSnapshotAbort true 10 [11, 12] ⟨fun _ => 7, 42⟩).csnlog 99 = 7 := by
  constructor
  · exact ((CSNSnapshotAbort_skips_indoubt 10 [11, 12]
      ⟨fun _ => 7, 42⟩ 11).1 (by simp)).1
  · exact (CSNSnapshotAbort_skips_indoubt 10 [11, 12]
      ⟨fun _ => 7, 42⟩ 99).2.1 (by simp)

/-- C5: `CSNSnapshotToXmin` rounds the CSN down to whole seconds; a second
newer than the last recorded one yields the head slot (latest known
xmin), a second within the retention window yields that second's recorded
slot, and an older second yields `InvalidTransactionId` (snapshot too
old). -/
theorem CSNSnapshotToXmin_spec :
    ∀ (snapshot_csn : Nat) (m : CSNSnapshotXidMap),
      (m.last_csn_seconds < snapshot_csn / NSECS_PER_SEC →
        CSNSnapshotToXmin snapshot_csn m = m.xmin_by_second m.head) ∧
      (snapshot_csn / NSECS_PER_SEC ≤ m.last_csn_seconds →
        m.last_csn_seconds - snapshot_csn / NSECS_PER_SEC < m.size →
        CSNSnapshotToXmin snapshot_csn m =
          m.xmin_by_second (snapshot_csn / NSECS_PER_SEC % m.size)) ∧
      (snapshot_csn / NSECS_PER_SEC ≤ m.last_csn_seconds →
        m.size ≤ m.last_csn_seconds - snapshot_csn / NSECS_PER_SEC →
        CSNSnapshotToXmin snapshot_csn m = InvalidTransactionId) := by
  intro csn m
  refine ⟨?_, ?_, ?_⟩
  · intro h
    simp [CSNSnapshotToXmin, h]
  · intro h1 h2
    simp [CSNSnapshotToXmin, Nat.not_lt.mpr h1, h2]
  · intro h1 h2
    simp [CSNSnapshotToXmin, Nat.not_lt.mpr h1, Nat.not_lt.mpr h2]

/-- Witness for C5, on a map of size `10` whose seconds run up to `100`:
a future second returns the head slot, second `95` its own slot, and
second `5` is too old. -/
theorem CSNSnapshotToXmin_spec_witness :
    CSNSnapshotToXmin (105 * NSECS_PER_SEC)
        ⟨0, 10, 100, fun j => j + 20⟩ = 20 ∧
      CSNSnapshotToXmin (95 * NSECS_PER_SEC)
        ⟨0, 10, 100, fun j => j + 20⟩ = 25 ∧
      CSNSnapshotToXmin (5 * NSECS_PER_SEC)
        ⟨0, 10, 100, fun j => j + 20⟩ = InvalidTransactionId := by
  refine ⟨?_, ?_, ?_⟩
  · exact (CSNSnapshotToXmin_spec (105 * NSECS_PER_SEC)
      ⟨0, 10, 100, fun j => j + 20⟩).1 (by norm_num [NSECS_PER_SEC])
  · have h := (CSNSnapshotToXmin_spec (95 * NSECS_PER_SEC)
      ⟨0, 10, 100, fun j => j + 20⟩).2.1 (by norm_num [NSECS_PER_SEC])
      (by norm_num [NSECS_PER_SEC])
    rw [h]
    norm_num [NSECS_PER_SEC]
  · exact (CSNSnapshotToXmin_spec (5 * NSECS_PER_SEC)
      ⟨0, 10, 100, fun j => j + 20⟩).2.2 (by norm_num [NSECS_PER_SEC])
      (by norm_num [NSECS_PER_SEC])

/-- Stepping the backfill offset `i + 1` times from `off` lands on
`(off + (size - 1) * (i + 1)) % size`. -/
lemma backstep_idx (size off : Nat) (hsize : 0 < size) (i : Nat) :
    ((off + size - 1) % size + (size - 1) * i) % size =
      (off + (size - 1) * (i + 1)) % size := by
  rw [Nat.mod_add_mod]
  congr 1
  have h : off + size - 1 = off + (size - 1) := by omega
  rw [h, Nat.mul_succ]
  ring

/-- `fillGap` writes `prev` exactly at the slots reached by `1 ≤ i ≤ count`
backward steps from `off` and leaves every other slot alone. -/
lemma fillGap_eq (size prev : Nat) (hsize : 0 < size) :
    ∀ (count off : Nat) (a : Nat → Nat) (j : Nat),
      ((∃ i, 1 ≤ i ∧ i ≤ count ∧ j = (off + (size - 1) * i) % size) →
        fillGap size prev count off a j = prev) ∧
      (¬ (∃ i, 1 ≤ i ∧ i ≤ count ∧ j = (off + (size - 1) * i) % size) →
        fillGap size prev count off a j = a j) := by
  intro count
  induction count with
  | zero =>
      intro off a j
      constructor
      · rintro ⟨i, h1, h2, _⟩
        omega
      · intro _
        rfl
  | succ n ih =>
      intro off a j
      have hstep : fillGap size prev (n + 1) off a j =
          fillGap size prev n ((off + size - 1) % size)
            (bufWrite a ((off + size - 1) % size) prev) j := rfl
      have hiff : (∃ i, 1 ≤ i ∧ i ≤ n ∧
          j = ((off + size - 1) % size + (size - 1) * i) % size) ↔
          (j ≠ (off + size - 1) % size ∧
            ∃ i, 1 ≤ i ∧ i ≤ n + 1 ∧
              j = (off + (size - 1) * i) % size) ∨
          (j = (off + size - 1) % size ∧
            ∃ i, 2 ≤ i ∧ i ≤ n + 1 ∧
              j = (off + (size - 1) * i) % size) := by
        constructor
        · rintro ⟨i, h1, h2, hji⟩
          by_cases hj : j = (off + size - 1) % size
          · refine Or.inr ⟨hj, i + 1, by omega, by omega, ?_⟩
            rw [hji, backstep_idx size off hsize]
          · refine Or.inl ⟨hj, i + 1, by omega, by omega, ?_⟩
            rw [hji, backstep_idx size off hsize]
        · rintro (⟨hj, i, h1, h2, hji⟩ | ⟨hj, i, h1, h2, hji⟩)
          · rcases Nat.lt_or_ge i 2 with hi | hi
            · exfalso
              apply hj
              have hi1 : i = 1 := by omega
              subst hi1
              rw [hji]
              congr 1
              omega
            · refine ⟨i - 1, by omega, by omega, ?_⟩
              rw [backstep_idx size off hsize]
              have h : i - 1 + 1 = i := by omega
              rw [h, hji]
          · refine ⟨i - 1, by omega, by omega, ?_⟩
            rw [backstep_idx size off hsize]
            have h : i - 1 + 1 = i := by omega
            rw [h, hji]
      constructor
      · rintro ⟨i, h1, h2, hji⟩
        rw [hstep]
        by_cases hj : j = (off + size - 1) % size
        · by_cases hrest : ∃ i, 1 ≤ i ∧ i ≤ n ∧
              j = ((off + size - 1) % size + (size - 1) * i) % size
          · exact (ih ((off + size - 1) % size)
              (bufWrite a ((off + size - 1) % size) prev) j).1 hrest
          · rw [(ih ((off + size - 1) % size)
              (bufWrite a ((off + size - 1) % size) prev) j).2 hrest]
            simp [bufWrite, hj]
        · have hrest : ∃ i, 1 ≤ i ∧ i ≤ n ∧
              j = ((off + size - 1) % size + (size - 1) * i) % size :=
            hiff.mpr (Or.inl ⟨hj, i, h1, h2, hji⟩)
          exact (ih ((off + size - 1) % size)
            (bufWrite a ((off + size - 1) % size) prev) j).1 hrest
      · intro hno
        rw [hstep]
        have hj : j ≠ (off + size - 1) % size := by
          intro hj
          apply hno
          refine ⟨1, le_refl 1, by omega, ?_⟩
          rw [hj]
          congr 1
          omega
        have hrest : ¬ ∃ i, 1 ≤ i ∧ i ≤ n ∧
            j = ((off + size - 1) % size + (size - 1) * i) % size := by
          intro hr
          rcases hiff.mp hr with ⟨_, i, h1, h2, hji⟩ | ⟨hj2, _⟩
          · exact hno ⟨i, h1, h2, hji⟩
          · exact hj hj2
        rw [(ih ((off + size - 1) % size)
          (bufWrite a ((off + size - 1) % size) prev) j).2 hrest]
        simp [bufWrite, hj]

/-- A backward-stepped slot never collides with the starting slot as long
as fewer than `size` steps were taken. -/
lemma backIdx_ne_start (size off : Nat) (hsize : 0 < size)
    (i : Nat) (h1 : 1 ≤ i) (h2 : i < size) :
    (off + (size - 1) * i) % size ≠ off := by
  intro heq
  have hq := Nat.div_add_mod (off + (size - 1) * i) size
  rw [heq] at hq
  have hdiv : size ∣ (size - 1) * i :=
    ⟨(off + (size - 1) * i) / size, by omega⟩
  have hcop : Nat.Coprime size (size - 1) := by
    have hs : size = size - 1 + 1 := by omega
    rw [hs]
    exact Nat.coprime_self_add_left.mpr (Nat.coprime_one_left _)
  have hdvd : size ∣ i := hcop.dvd_of_dvd_mul_left hdiv
  have := Nat.le_of_dvd (by omega) hdvd
  omega

/-- C4: `CSNSnapshotMapXmin` rounds the CSN up to the next whole second
`s`; when `s` is at or below the recorded last-filled second it returns
without writing; otherwise it records `s`, moves the head to `s`'s slot,
writes the current oldest-running xmin there, and fills each skipped slot
in the gap since the last write (gap clamped to the buffer size) with the
previous head value rather than the new one; all other slots keep their
contents. -/
theorem CSNSnapshotMapXmin_spec :
    ∀ (snapshot_csn current_oldest_xmin : Nat) (m : CSNSnapshotXidMap),
      0 < m.size →
      ∀ s : Nat, s = snapshot_csn / NSECS_PER_SEC + 1 →
        (s ≤ m.last_csn_seconds →
          CSNSnapshotMapXmin snapshot_csn current_oldest_xmin m = m) ∧
        (m.last_csn_seconds < s →
          ∀ g : Nat, g = min (s - m.last_csn_seconds) m.size →
            (CSNSnapshotMapXmin snapshot_csn current_oldest_xmin
                m).last_csn_seconds = s ∧
            (CSNSnapshotMapXmin snapshot_csn current_oldest_xmin m).head =
              s % m.size ∧
            (CSNSnapshotMapXmin snapshot_csn current_oldest_xmin m).size =
              m.size ∧
            (CSNSnapshotMapXmin snapshot_csn current_oldest_xmin
                m).xmin_by_second (s % m.size) = current_oldest_xmin ∧
            (∀ i, 1 ≤ i → i < g →
              (CSNSnapshotMapXmin snapshot_csn current_oldest_xmin
                  m).xmin_by_second
                  ((s % m.size + (m.size - 1) * i) % m.size) =
                m.xmin_by_second m.head) ∧
            (∀ j, j ≠ s % m.size →
              (∀ i, 1 ≤ i → i < g →
                j ≠ (s % m.size + (m.size - 1) * i) % m.size) →
              (CSNSnapshotMapXmin snapshot_csn current_oldest_xmin
                  m).xmin_by_second j = m.xmin_by_second j)) := by
  intro csn cur m hsize s hs
  constructor
  · intro h
    simp only [CSNSnapshotMapXmin, ← hs]
    rw [if_pos h]
  · intro h g hg
    have hcond : ¬ (m.last_csn_seconds ≥ s) := by omega
    have hres : CSNSnapshotMapXmin csn cur m =
        { m with
          last_csn_seconds := s
          head := s % m.size
          xmin_by_second :=
            fillGap m.size (m.xmin_by_second m.head)
              ((if s - m.last_csn_seconds > m.size then m.size
                else s - m.last_csn_seconds) - 1)
              (s % m.size)
              (bufWrite m.xmin_by_second (s % m.size) cur) } := by
      simp only [CSNSnapshotMapXmin, ← hs]
      rw [if_neg hcond]
    have hcount : (if s - m.last_csn_seconds > m.size then m.size
        else s - m.last_csn_seconds) - 1 = g - 1 := by
      rw [hg]
      split <;> omega
    have hg1 : 1 ≤ g := by
      rw [hg]
      omega
    have hgsize : g ≤ m.size := by
      rw [hg]
      omega
    rw [hres]
    refine ⟨rfl, rfl, rfl, ?_, ?_, ?_⟩
    · show fillGap m.size (m.xmin_by_second m.head) _ _ _ _ = cur
      rw [hcount]
      rw [(fillGap_eq m.size (m.xmin_by_second m.head) hsize (g - 1)
        (s % m.size) (bufWrite m.xmin_by_second (s % m.size) cur)
        (s % m.size)).2 ?_]
      · simp [bufWrite]
      · rintro ⟨i, h1, h2, hji⟩
        exact backIdx_ne_start m.size (s % m.size) hsize i h1
          (by omega) hji.symm
    · intro i h1 h2
      show fillGap m.size (m.xmin_by_second m.head) _ _ _ _ =
        m.xmin_by_second m.head
      rw [hcount]
      exact (fillGap_eq m.size (m.xmin_by_second m.head) hsize (g - 1)
        (s % m.size) (bufWrite m.xmin_by_second (s % m.size) cur)
        _).1 ⟨i, h1, by omega, rfl⟩
    · intro j hj hnot
      show fillGap m.size (m.xmin_by_second m.head) _ _ _ _ =
        m.xmin_by_second j
      rw [hcount]
      rw [(fillGap_eq m.size (m.xmin_by_second m.head) hsize (g - 1)
        (s % m.size) (bufWrite m.xmin_by_second (s % m.size) cur) j).2 ?_]
      · simp [bufWrite, hj]
      · rintro ⟨i, h1, h2, hji⟩
        exact hnot i h1 (by omega) hji

/-- Witness for C4 on a size-4 map last filled at second 10: recording a
CSN in second 12 (rounded up to 13) writes the new xmin `99` at slot
`13 % 4 = 1`, backfills the two skipped slots `0` and `3` with the old
head value `50`, and leaves slot `2` unchanged. -/
theorem CSNSnapshotMapXmin_spec_witness :
    (CSNSnapshotMapXmin (12 * NSECS_PER_SEC + 5) 99
        ⟨0, 4, 10, fun _ => 50⟩).last_csn_seconds = 13 ∧
      (CSNSnapshotMapXmin (12 * NSECS_PER_SEC + 5) 99
        ⟨0, 4, 10, fun _ => 50⟩).head = 1 ∧
      (CSNSnapshotMapXmin (12 * NSECS_PER_SEC + 5) 99
        ⟨0, 4, 10, fun _ => 50⟩).xmin_by_second 1 = 99 ∧
      (CSNSnapshotMapXmin (12 * NSECS_PER_SEC + 5) 99
        ⟨0, 4, 10, fun _ => 50⟩).xmin_by_second 0 = 50 ∧
      (CSNSnapshotMapXmin (12 * NSECS_PER_SEC + 5) 99
        ⟨0, 4, 10, fun _ => 50⟩).xmin_by_second 2 = 50 := by
  have h := (CSNSnapshotMapXmin_spec (12 * NSECS_PER_SEC + 5) 99
    ⟨0, 4, 10, fun _ => 50⟩ (by norm_num) 13
    (by norm_num [NSECS_PER_SEC])).2 (by norm_num) 3 (by norm_num)
  refine ⟨h.1, h.2.1, ?_, ?_, ?_⟩
  · have := h.2.2.2.1
    norm_num at this
    exact this
  · have := h.2.2.2.2.1 1 (by norm_num) (by norm_num)
    norm_num at this
    exact this
  · have := h.2.2.2.2.2 2 (by norm_num)
      (by intro i h1 h2; interval_cases i <;> norm_num)
    norm_num at this
    exact this

/-- C7: if `begin_remote_xact` fails inside `GetConnection` with a
connection-level error (`ERRCODE_CONNECTION_FAILURE` and `PQstatus`
reading `CONNECTION_BAD`) while the remote transaction depth is still 0,
the connection is dropped, a new one is established and the begin is
retried exactly once (`beginAttempts = 2`), a failure on the retry
propagating; any other failure — wrong sqlstate, connection not bad, or
depth > 0 — propagates without a retry (`beginAttempts = 1`); a healthy
live entry enters this logic directly from `GetConnection`. -/
theorem GetConnection_retry_once :
    ∀ (env : FdwEnv) (entry : ConnCacheEntry) (k c : Nat) (wp : Bool),
      (∀ entry1 k1,
        begin_remote_xact env entry k = .ok (entry1, k1) →
        GetConnectionFromBegin env entry k c wp =
          { res := .ok { entry1 with
              have_prep_stmt := entry1.have_prep_stmt || wp }
            beginAttempts := 1 }) ∧
      (∀ e entryF kF,
        begin_remote_xact env entry k = .error (e, entryF, kF) →
        (e.sqlstate ≠ ERRCODE_CONNECTION_FAILURE ∨ e.connBad = false ∨
          0 < entryF.xact_depth) →
        GetConnectionFromBegin env entry k c wp =
          { res := .error (e, entryF), beginAttempts := 1 }) ∧
      (∀ e entryF kF,
        begin_remote_xact env entry k = .error (e, entryF, kF) →
        e.sqlstate = ERRCODE_CONNECTION_FAILURE → e.connBad = true →
        entryF.xact_depth = 0 →
        (∀ e2 entry2,
          make_new_connection env.connect env.server_hashvalue
              env.mapping_hashvalue c (disconnect_pg_server entryF) =
            .error (e2, entry2) →
          GetConnectionFromBegin env entry k c wp =
            { res := .error (e2, entry2), beginAttempts := 1 }) ∧
        (∀ entryN c2 entry2 k2,
          make_new_connection env.connect env.server_hashvalue
              env.mapping_hashvalue c (disconnect_pg_server entryF) =
            .ok (entryN, c2) →
          begin_remote_xact env entryN kF = .ok (entry2, k2) →
          GetConnectionFromBegin env entry k c wp =
            { res := .ok { entry2 with
                have_prep_stmt := entry2.have_prep_stmt || wp }
              beginAttempts := 2 }) ∧
        (∀ entryN c2 e2 entry2 k2,
          make_new_connection env.connect env.server_hashvalue
              env.mapping_hashvalue c (disconnect_pg_server entryF) =
            .ok (entryN, c2) →
          begin_remote_xact env entryN kF = .error (e2, entry2, k2) →
          GetConnectionFromBegin env entry k c wp =
            { res := .error (e2, entry2), beginAttempts := 2 })) ∧
      (entry.conn.isSome = true → entry.changing_xact_state = false →
        (entry.invalidated = false ∨ 0 < entry.xact_depth) →
        GetConnection env entry wp =
          GetConnectionFromBegin env entry 0 0 wp) := by
  intro env entry k c wp
  refine ⟨?_, ?_, ?_, ?_⟩
  · intro entry1 k1 hb
    simp only [GetConnectionFromBegin, hb]
  · intro e entryF kF hb hcond
    simp only [GetConnectionFromBegin, hb]
    rw [if_pos]
    rcases hcond with h | h | h
    · exact Or.inl h
    · refine Or.inr (Or.inl ?_)
      simp [h]
    · exact Or.inr (Or.inr h)
  · intro e entryF kF hb hsql hbad hdepth
    have hneg : ¬ (e.sqlstate ≠ ERRCODE_CONNECTION_FAILURE ∨
        ¬ e.connBad = true ∨ entryF.xact_depth > 0) := by
      rw [hsql, hbad, hdepth]
      simp
    refine ⟨?_, ?_, ?_⟩
    · intro e2 entry2 hmake
      simp only [GetConnectionFromBegin, hb]
      rw [if_neg hneg]
      simp only [hmake]
    · intro entryN c2 entry2 k2 hmake hb2
      simp only [GetConnectionFromBegin, hb]
      rw [if_neg hneg]
      simp only [hmake, hb2]
    · intro entryN c2 e2 entry2 k2 hmake hb2
      simp only [GetConnectionFromBegin, hb]
      rw [if_neg hneg]
      simp only [hmake, hb2]
  · intro hconn hch hinv
    have h1 : ¬ (entry.conn.isSome = true ∧
        entry.changing_xact_state = true) := by
      simp [hch]
    have h2 : ¬ (entry.conn.isSome = true ∧ entry.invalidated = true ∧
        entry.xact_depth = 0) := by
      rcases hinv with h | h
      · simp [h]
      · rintro ⟨_, _, hd⟩
        omega
    have h3 : ¬ entry.conn = none := by
      intro hc
      rw [hc] at hconn
      simp at hconn
    simp only [GetConnection]
    rw [if_neg h1, if_neg h2, if_neg h3]

/-- Witness for C7: with a first `START TRANSACTION` failing
connection-level at depth 0 and everything succeeding after the
reconnect, `GetConnection` returns the freshly established connection
(id 2) with an open remote transaction after exactly two begin
attempts. -/
theorem GetConnection_retry_once_witness :
    GetConnection
        ⟨fun _ => .ok 2,
         fun k => if k = 0 then
             .execErr ⟨ERRCODE_CONNECTION_FAILURE, true⟩
           else .ok,
         false, true, false, 0, 1, 0, 0⟩
        ⟨some 1, 0, false, false, false, false, false, 0, 0, 0⟩ false =
      { res := .ok ⟨some 2, 1, false, false, false, false, false, 0, 0, 0⟩
        beginAttempts := 2 } := by
  have h := GetConnection_retry_once
    ⟨fun _ => .ok 2,
     fun k => if k = 0 then
         .execErr ⟨ERRCODE_CONNECTION_FAILURE, true⟩
       else .ok,
     false, true, false, 0, 1, 0, 0⟩
    ⟨some 1, 0, false, false, false, false, false, 0, 0, 0⟩ 0 0 false
  have hiv := h.2.2.2 rfl rfl (Or.inl rfl)
  have hiii := (h.2.2.1 ⟨ERRCODE_CONNECTION_FAILURE, true⟩
      ⟨some 1, 0, false, false, true, false, false, 0, 0, 0⟩ 1
      rfl rfl rfl rfl).2.1
      ⟨some 2, 0, false, false, false, false, false, 0, 0, 0⟩ 1
      ⟨some 2, 1, false, false, false, false, false, 0, 0, 0⟩ 2 rfl rfl
  rw [hiv, hiii]
  rfl

/-- C8: when two-phase resolution issues `COMMIT PREPARED` /
`ROLLBACK PREPARED` and the remote reports an undefined-object error (the
prepared transaction no longer exists), `pgfdw_end_prepared_xact`
completes successfully as a no-op (performing only the usual end-of-
transaction cleanup); every other remote error — any other error status,
or a failure while executing the command — is surfaced to the caller. -/
theorem pgfdw_end_prepared_xact_tolerates_undefined_object :
    ∀ (env : EndPreparedEnv) (entry : ConnCacheEntry) (is_commit : Bool),
      (∀ entryC c, endPreparedConn env entry = .ok (entryC, c) →
        (env.execResult = .ok →
          pgfdw_end_prepared_xact env entry is_commit =
            .ok (pgfdw_cleanup_after_transaction env.connNotIdleAfter
              entryC)) ∧
        (∀ e, env.execResult = .badStatus e →
          e.sqlstate = ERRCODE_UNDEFINED_OBJECT →
          pgfdw_end_prepared_xact env entry is_commit =
            .ok (pgfdw_cleanup_after_transaction env.connNotIdleAfter
              entryC)) ∧
        (∀ e, env.execResult = .badStatus e →
          e.sqlstate ≠ ERRCODE_UNDEFINED_OBJECT →
          pgfdw_end_prepared_xact env entry is_commit =
            .error (e, entryC)) ∧
        (∀ e, env.execResult = .execErr e →
          pgfdw_end_prepared_xact env entry is_commit =
            .error (e, entryC))) ∧
      (∀ e entryE, endPreparedConn env entry = .error (e, entryE) →
        pgfdw_end_prepared_xact env entry is_commit =
          .error (e, entryE)) := by
  intro env entry ic
  constructor
  · intro entryC c hconn
    refine ⟨?_, ?_, ?_, ?_⟩
    · intro hexec
      simp only [pgfdw_end_prepared_xact, hconn, hexec]
    · intro e hexec hsql
      simp only [pgfdw_end_prepared_xact, hconn, hexec]
      rw [if_neg]
      simp [hsql]
    · intro e hexec hsql
      simp only [pgfdw_end_prepared_xact, hconn, hexec]
      rw [if_pos hsql]
    · intro e hexec
      simp only [pgfdw_end_prepared_xact, hconn, hexec]
  · intro e entryE hconn
    simp only [pgfdw_end_prepared_xact, hconn]

/-- Witness for C8: a `COMMIT PREPARED` answered with an undefined-object
error resolves successfully (the entry merely cleaned up), and answered
with a connection-failure error it surfaces that error. -/
theorem pgfdw_end_prepared_xact_tolerates_undefined_object_witness :
    pgfdw_end_prepared_xact
        ⟨false, fun _ => .ok 7,
         .badStatus ⟨ERRCODE_UNDEFINED_OBJECT, false⟩, false, 0, 0⟩
        ⟨some 3, 1, false, false, false, false, false, 0, 0, 5⟩ true =
      .ok ⟨some 3, 0, false, false, false, false, false, 0, 0, 0⟩ ∧
    pgfdw_end_prepared_xact
        ⟨false, fun _ => .ok 7,
         .badStatus ⟨ERRCODE_CONNECTION_FAILURE, true⟩, false, 0, 0⟩
        ⟨some 3, 1, false, false, false, false, false, 0, 0, 5⟩ true =
      .error (⟨ERRCODE_CONNECTION_FAILURE, true⟩,
        ⟨some 3, 1, false, false, false, false, false, 0, 0, 5⟩) := by
  constructor
  · exact ((pgfdw_end_prepared_xact_tolerates_undefined_object
      ⟨false, fun _ => .ok 7,
       .badStatus ⟨ERRCODE_UNDEFINED_OBJECT, false⟩, false, 0, 0⟩
      ⟨some 3, 1, false, false, false, false, false, 0, 0, 5⟩ true).1
      ⟨some 3, 1, false, false, false, false, false, 0, 0, 5⟩ 0 rfl).2.1
      ⟨ERRCODE_UNDEFINED_OBJECT, false⟩ rfl rfl
  · exact ((pgfdw_end_prepared_xact_tolerates_undefined_object
      ⟨false, fun _ => .ok 7,
       .badStatus ⟨ERRCODE_CONNECTION_FAILURE, true⟩, false, 0, 0⟩
      ⟨some 3, 1, false, false, false, false, false, 0, 0, 5⟩ true).1
      ⟨some 3, 1, false, false, false, false, false, 0, 0, 5⟩ 0 rfl).2.2.1
      ⟨ERRCODE_CONNECTION_FAILURE, true⟩ rfl (by decide)
